import Mathlib

/-!
Verification development for a small backend of three HTTP-triggered
functions (auth, messages, topics) over a relational store.

The Python handlers in `backend/auth/index.py`, `backend/messages/index.py`
and `backend/topics/index.py` are shallowly embedded: the relational store
is a record of row lists (rows carry the ids and timestamps the database
would assign), JSON documents are an inductive type, and every SQL
statement is given its relational meaning on the row lists.  Timestamps
are abstract instants modelled as `Nat`; `isoformat` is their injective
rendering.  Nondeterministic inputs of a request cycle (the database
clock `now`, the freshly generated token) are explicit parameters.
Connection acquisition and release (`get_db_connection` / `conn.close()`)
are recorded in an event trace so that resource discipline is provable.
-/

/-- JSON documents, as produced by `json.dumps` in the handlers. -/
inductive Json where
  | str (s : String)
  | num (n : Int)
  | null
  | arr (elems : List Json)
  | obj (fields : List (String × Json))

/-- Field lookup in a JSON object; `none` on non-objects or missing keys. -/
def Json.getField : Json → String → Option Json
  | Json.obj fields, k => fields.lookup k
  | _, _ => none

/-- Characters stripped by Python's `str.strip()`. -/
def pyWhitespace (c : Char) : Bool :=
  c = ' ' || c = '\t' || c = '\n' || c = '\x0d' || c = '\x0b' || c = '\x0c'

/-- Model of Python's `str.strip()`: drop leading and trailing whitespace. -/
def pyStrip (s : String) : String :=
  String.mk (((s.data.dropWhile pyWhitespace).reverse.dropWhile pyWhitespace).reverse)

/-- Model of Python's truthiness test on an optional string (`if not token:`):
`None` and the empty string are falsy. -/
def strTruthy : Option String → Bool
  | none => false
  | some s => !(s = "")

/-- Model of Python's truthiness test on an optional integer (`if not user_id:`):
`None` and `0` are falsy. -/
def natTruthy : Option Nat → Bool
  | none => false
  | some n => !(n = 0)

/-- Model of Python's `a or b` on two optional strings: the first operand if
it is truthy, otherwise the second operand. -/
def pyOrStr (a b : Option String) : Option String :=
  if strTruthy a then a else b

/-- Does the list start with the given pattern? -/
def listStartsWith : List Char → List Char → Bool
  | _, [] => true
  | [], _ :: _ => false
  | a :: as, b :: bs => a = b && listStartsWith as bs

/-- Does the list contain the pattern as a contiguous sublist? -/
def listContainsSub : List Char → List Char → Bool
  | [], needle => needle.isEmpty
  | a :: t, needle => listStartsWith (a :: t) needle || listContainsSub t needle

/-- Model of Python's substring test `needle in hay`. -/
def strContains (hay needle : String) : Bool :=
  listContainsSub hay.data needle.data

/-- Parse a decimal digit. -/
def digitVal? (c : Char) : Option Nat :=
  if '0' ≤ c ∧ c ≤ '9' then some (c.toNat - '0'.toNat) else none

/-- Parse a nonempty all-digit string to a `Nat` (model of the integer cast
the store applies to a query parameter). -/
def parseNat? (s : String) : Option Nat :=
  match s.data with
  | [] => none
  | cs => cs.foldl (fun acc c => match acc, digitVal? c with
      | some n, some d => some (n * 10 + d)
      | _, _ => none) (some 0)

/-- Maximum of a list of naturals, `none` when empty (model of SQL `MAX`,
which is `NULL` over an empty group). -/
def listMax : List Nat → Option Nat
  | [] => none
  | x :: xs =>
    match listMax xs with
    | none => some x
    | some y => some (max x y)

/-! ### SHA-256 (model of `hashlib.sha256(...).hexdigest()`)

Words are naturals reduced modulo `2 ^ 32`; the message is a list of bytes
(naturals below 256). -/

/-- Reduce to a 32-bit word. -/
def w32 (x : Nat) : Nat := x % 4294967296

/-- Rotate a 32-bit word right by `n`. -/
def rotr32 (n x : Nat) : Nat := w32 ((x >>> n) ||| (x <<< (32 - n)))

/-- The first 64 primes; FIPS 180-4 derives the SHA-256 constants from
their roots. -/
def sha256Primes : List Nat :=
  [2, 3, 5, 7, 11, 13, 17, 19, 23, 29, 31, 37, 41, 43, 47, 53,
   59, 61, 67, 71, 73, 79, 83, 89, 97, 101, 103, 107, 109, 113, 127, 131,
   137, 139, 149, 151, 157, 163, 167, 173, 179, 181, 191, 193, 197, 199, 211, 223,
   227, 229, 233, 239, 241, 251, 257, 263, 269, 271, 277, 281, 283, 293, 307, 311]

/-- Integer square root by descending bit construction (largest `r` with
`r * r ≤ n`, for `n < 2 ^ 128`). -/
def bitSqrt (n : Nat) : Nat :=
  (List.range 64).foldr
    (fun i r => let c := r ||| (1 <<< i); if c * c ≤ n then c else r) 0

/-- Integer cube root by descending bit construction (largest `r` with
`r * r * r ≤ n`, for `n < 2 ^ 192`). -/
def bitCbrt (n : Nat) : Nat :=
  (List.range 64).foldr
    (fun i r => let c := r ||| (1 <<< i); if c * c * c ≤ n then c else r) 0

/-- First 32 bits of the fractional part of the square root of `p`. -/
def fracSqrtWord (p : Nat) : Nat := bitSqrt (p <<< 64) % 4294967296

/-- First 32 bits of the fractional part of the cube root of `p`. -/
def fracCbrtWord (p : Nat) : Nat := bitCbrt (p <<< 96) % 4294967296

/-- SHA-256 round constants: fractional cube-root bits of the first 64
primes. -/
def sha256K : List Nat := sha256Primes.map fracCbrtWord

/-- SHA-256 initial hash state: fractional square-root bits of the first 8
primes. -/
def sha256H0 : List Nat := (sha256Primes.take 8).map fracSqrtWord

/-- Append the `0x80` marker, zero padding and the 8-byte big-endian bit
length to a byte message. -/
def sha256Pad (msg : List Nat) : List Nat :=
  let len := msg.length
  let zeros := (56 + 64 - (len + 1) % 64) % 64
  let bitLen := 8 * len
  msg ++ [0x80] ++ List.replicate zeros 0 ++
    (List.range 8).map (fun i => (bitLen >>> (8 * (7 - i))) % 256)

/-- Group a byte list into big-endian 32-bit words. -/
def bytesToWords : List Nat → List Nat
  | b0 :: b1 :: b2 :: b3 :: rest =>
    (b0 <<< 24 ||| b1 <<< 16 ||| b2 <<< 8 ||| b3) :: bytesToWords rest
  | _ => []

/-- Group a word list into 16-word blocks (the padded message length is a
multiple of 16 words). -/
def wordsToBlocks (acc : List Nat) : List Nat → List (List Nat)
  | [] => []
  | w :: rest =>
    let acc2 := w :: acc
    if acc2.length = 16 then acc2.reverse :: wordsToBlocks [] rest
    else wordsToBlocks acc2 rest

/-- Extend a 16-word block to the 64-word message schedule. -/
def sha256Schedule (block : List Nat) : List Nat :=
  (List.range 48).foldl
    (fun ws i =>
      let t := i + 16
      let x := ws.getD (t - 15) 0
      let y := ws.getD (t - 2) 0
      let s0 := rotr32 7 x ^^^ rotr32 18 x ^^^ (x >>> 3)
      let s1 := rotr32 17 y ^^^ rotr32 19 y ^^^ (y >>> 10)
      ws ++ [w32 (ws.getD (t - 16) 0 + s0 + ws.getD (t - 7) 0 + s1)])
    block

/-- One round of the SHA-256 compression function on the 8-word state. -/
def sha256Round (k w : Nat) (st : List Nat) : List Nat :=
  match st with
  | [a, b, c, d, e, f, g, h] =>
    let s1 := rotr32 6 e ^^^ rotr32 11 e ^^^ rotr32 25 e
    let ch := (e &&& f) ^^^ ((4294967295 - e) &&& g)
    let t1 := w32 (h + s1 + ch + k + w)
    let s0 := rotr32 2 a ^^^ rotr32 13 a ^^^ rotr32 22 a
    let mj := (a &&& b) ^^^ (a &&& c) ^^^ (b &&& c)
    let t2 := w32 (s0 + mj)
    [w32 (t1 + t2), a, b, c, w32 (d + t1), e, f, g]
  | st => st

/-- Compress one 16-word block into the running hash state. -/
def sha256Block (hs : List Nat) (block : List Nat) : List Nat :=
  let ws := sha256Schedule block
  let st := (List.range 64).foldl (fun st t => sha256Round (sha256K.getD t 0) (ws.getD t 0) st) hs
  List.zipWith (fun x y => w32 (x + y)) hs st

/-- Lowercase hexadecimal digit. -/
def hexDigit (n : Nat) : Char :=
  if n < 10 then Char.ofNat ('0'.toNat + n) else Char.ofNat ('a'.toNat + (n - 10))

/-- Render a 32-bit word as 8 hexadecimal digits. -/
def hex8 (x : Nat) : List Char :=
  (List.range 8).map (fun i => hexDigit ((x >>> (4 * (7 - i))) % 16))

/-- SHA-256 digest of a byte message, as a lowercase hex string. -/
def sha256Hex (msg : List Nat) : String :=
  let blocks := wordsToBlocks [] (bytesToWords (sha256Pad msg))
  let hs := blocks.foldl sha256Block sha256H0
  String.mk (hs.foldr (fun h acc => hex8 h ++ acc) [])

/-- UTF-8 encoding of one character (model of Python `str.encode()`). -/
def utf8Char (c : Char) : List Nat :=
  let n := c.toNat
  if n < 0x80 then [n]
  else if n < 0x800 then [0xc0 ||| (n >>> 6), 0x80 ||| (n &&& 0x3f)]
  else if n < 0x10000 then
    [0xe0 ||| (n >>> 12), 0x80 ||| ((n >>> 6) &&& 0x3f), 0x80 ||| (n &&& 0x3f)]
  else
    [0xf0 ||| (n >>> 18), 0x80 ||| ((n >>> 12) &&& 0x3f),
     0x80 ||| ((n >>> 6) &&& 0x3f), 0x80 ||| (n &&& 0x3f)]

/-- UTF-8 encoding of a string. -/
def utf8Bytes (s : String) : List Nat :=
  s.data.foldr (fun c acc => utf8Char c ++ acc) []

/-- Model of `hash_password` in `backend/auth/index.py`:
`hashlib.sha256(password.encode()).hexdigest()`. -/
def hash_password (password : String) : String :=
  sha256Hex (utf8Bytes password)

/-! ### Data model

Rows carry the values the database assigns (`id` from the sequence,
`created_at` from the clock).  Row lists are kept in insertion order, which
is also the order an unordered scan (`SELECT ... LIMIT 1`) reads them in. -/

/-- A row of the `users` table. -/
structure User where
  id : Nat
  username : String
  email : String
  password_hash : String
  created_at : Nat
deriving DecidableEq, Repr

/-- A row of the `messages` table (`user_id` and `topic_id` are nullable). -/
structure Msg where
  id : Nat
  content : String
  user_id : Option Nat
  topic_id : Option Nat
  created_at : Nat
deriving DecidableEq, Repr

/-- A row of the `topics` table. -/
structure Topic where
  id : Nat
  title : String
  user_id : Nat
  created_at : Nat
deriving DecidableEq, Repr

/-- The relational store: the three tables plus the id sequences. -/
structure Store where
  users : List User
  topics : List Topic
  messages : List Msg
  nextUserId : Nat
  nextTopicId : Nat
  nextMessageId : Nat
deriving DecidableEq, Repr

/-- Connection lifecycle events, recorded in program order:
`get_db_connection()` emits `acquire`, `conn.close()` emits `release`. -/
inductive ConnEvent where
  | acquire
  | release
deriving DecidableEq, Repr

/-- The parsed JSON request body (`json.loads(event.get('body', '{}'))`),
restricted to the fields the handlers read.  A missing body is the empty
object, i.e. all fields `none`. -/
structure BodyData where
  username : Option String
  email : Option String
  password : Option String
  content : Option String
  title : Option String
  topic_id : Option Nat
deriving DecidableEq, Repr

/-- The empty request body. -/
def emptyBody : BodyData := ⟨none, none, none, none, none, none⟩

/-- The normalized request event: `httpMethod`, `path` and
`queryStringParameters` may be absent (the handlers supply defaults via
`event.get`), headers and query parameters are string maps. -/
structure Event where
  httpMethod : Option String
  path : Option String
  queryStringParameters : Option (List (String × String))
  headers : List (String × String)
  body : BodyData
deriving DecidableEq, Repr

/-- The fixed response envelope
`{statusCode, headers, body, isBase64Encoded}`; `body = none` models the
empty string body of the `OPTIONS` branch. -/
structure Response where
  statusCode : Nat
  headers : List (String × String)
  body : Option Json
  isBase64Encoded : Bool

/-- Abstract instants rendered by `datetime.isoformat()`; instants are
`Nat` in the model, so the rendering is their decimal form. -/
def isoformat (t : Nat) : String := toString t

/-- The JSON error payload `{'error': msg}`. -/
def errJson (msg : String) : Json := Json.obj [("error", Json.str msg)]

/-- A non-`OPTIONS` response: status, the two CORS/content headers every
such response carries in the source, and a JSON body. -/
def mkResp (code : Nat) (body : Json) : Response :=
  ⟨code, [("Content-Type", "application/json"), ("Access-Control-Allow-Origin", "*")],
   some body, false⟩

/-- The `OPTIONS` preflight response (the allowed-headers value differs per
handler). -/
def optionsResp (allowHeaders : String) : Response :=
  ⟨200, [("Access-Control-Allow-Origin", "*"),
         ("Access-Control-Allow-Methods", "GET, POST, OPTIONS"),
         ("Access-Control-Allow-Headers", allowHeaders),
         ("Access-Control-Max-Age", "86400")],
   none, false⟩

/-- JSON rendering of a user row as returned by register/login
(`id, username, email, created_at` — never the password hash). -/
def userJson (u : User) : Json :=
  Json.obj [("id", Json.num u.id), ("username", Json.str u.username),
            ("email", Json.str u.email), ("created_at", Json.str (isoformat u.created_at))]

/-! ### Auth handler (`backend/auth/index.py`) -/

/-- The `POST ?action=register` branch: trim the three fields, reject blank
fields (400) and duplicate username-or-email (409,
`SELECT id FROM users WHERE username = %s OR email = %s`), otherwise insert
the user (`INSERT ... RETURNING id, username, email, created_at`) and
answer 201 with the created user and a fresh token. -/
def authRegister (b : BodyData) (s : Store) (now : Nat) (tok : String) :
    Response × Store × List ConnEvent :=
  let username := pyStrip (b.username.getD "")
  let email := pyStrip (b.email.getD "")
  let password := pyStrip (b.password.getD "")
  if username = "" ∨ email = "" ∨ password = "" then
    (mkResp 400 (errJson "All fields are required"), s, [ConnEvent.release])
  else
    match s.users.find? (fun u => u.username == username || u.email == email) with
    | some _ =>
      (mkResp 409 (errJson "Username or email already exists"), s, [ConnEvent.release])
    | none =>
      let newUser : User := ⟨s.nextUserId, username, email, hash_password password, now⟩
      (mkResp 201 (Json.obj [("user", userJson newUser), ("token", Json.str tok)]),
       { s with users := s.users ++ [newUser], nextUserId := s.nextUserId + 1 },
       [ConnEvent.release])

/-- The `POST ?action=login` branch: trim both fields, reject blank fields
(400), look up a user by email and password hash
(`SELECT ... WHERE email = %s AND password_hash = %s`), answer 401 on a
miss and 200 with the user and a fresh token on a hit. -/
def authLogin (b : BodyData) (s : Store) (tok : String) :
    Response × Store × List ConnEvent :=
  let email := pyStrip (b.email.getD "")
  let password := pyStrip (b.password.getD "")
  if email = "" ∨ password = "" then
    (mkResp 400 (errJson "Email and password are required"), s, [ConnEvent.release])
  else
    let password_hash := hash_password password
    match s.users.find? (fun u => u.email == email && u.password_hash == password_hash) with
    | none =>
      (mkResp 401 (errJson "Invalid credentials"), s, [ConnEvent.release])
    | some u =>
      (mkResp 200 (Json.obj [("user", userJson u), ("token", Json.str tok)]),
       s, [ConnEvent.release])

/-- The auth handler: `OPTIONS` short-circuits before any connection is
made; otherwise a connection is acquired, the action is dispatched, and
every branch releases the connection before returning. -/
def authHandler (ev : Event) (s : Store) (now : Nat) (tok : String) :
    Response × Store × List ConnEvent :=
  let method := ev.httpMethod.getD "GET"
  let params := ev.queryStringParameters.getD []
  let action := (params.lookup "action").getD ""
  if method = "OPTIONS" then
    (optionsResp "Content-Type, X-Auth-Token", s, [])
  else
    let res :=
      if method = "POST" ∧ action = "register" then authRegister ev.body s now tok
      else if method = "POST" ∧ action = "login" then authLogin ev.body s tok
      else (mkResp 404 (errJson "Not found"), s, [ConnEvent.release])
    (res.1, res.2.1, ConnEvent.acquire :: res.2.2)

/-! ### Messages handler (`backend/messages/index.py`) -/

/-- Ordering relation of `ORDER BY created_at DESC` on messages. -/
def msgDesc (a b : Msg) : Prop := b.created_at ≤ a.created_at

instance : DecidableRel msgDesc := fun a b => Nat.decLe b.created_at a.created_at

instance : IsTotal Msg msgDesc := ⟨fun a b => Nat.le_total b.created_at a.created_at⟩

instance : IsTrans Msg msgDesc := ⟨fun _ _ _ h1 h2 => Nat.le_trans h2 h1⟩

/-- Ordering relation of `ORDER BY m.created_at ASC` on messages. -/
def msgAsc (a b : Msg) : Prop := a.created_at ≤ b.created_at

instance : DecidableRel msgAsc := fun a b => Nat.decLe a.created_at b.created_at

instance : IsTotal Msg msgAsc := ⟨fun a b => Nat.le_total a.created_at b.created_at⟩

instance : IsTrans Msg msgAsc := ⟨fun _ _ _ h1 h2 => Nat.le_trans h1 h2⟩

/-- JSON rendering of a flat-board message: `{id, content, created_at}`. -/
def flatMsgJson (m : Msg) : Json :=
  Json.obj [("id", Json.num m.id), ("content", Json.str m.content),
            ("created_at", Json.str (isoformat m.created_at))]

/-- The flat-board `GET` branch:
`SELECT id, content, created_at FROM messages ORDER BY created_at DESC`. -/
def messagesList (s : Store) : Response × Store × List ConnEvent :=
  let rows := List.insertionSort msgDesc s.messages
  (mkResp 200 (Json.obj [("messages", Json.arr (rows.map flatMsgJson))]), s,
   [ConnEvent.release])

/-- The flat-board `POST` branch: trim the content, reject blank content
(400), otherwise insert an anonymous message with no user or topic
(`INSERT INTO messages (content) VALUES (%s) RETURNING ...`) and answer
201 with the created row. -/
def messagesCreate (b : BodyData) (s : Store) (now : Nat) :
    Response × Store × List ConnEvent :=
  let content := pyStrip (b.content.getD "")
  if content = "" then
    (mkResp 400 (errJson "Content is required"), s, [ConnEvent.release])
  else
    let newMsg : Msg := ⟨s.nextMessageId, content, none, none, now⟩
    (mkResp 201 (Json.obj [("message", flatMsgJson newMsg)]),
     { s with messages := s.messages ++ [newMsg], nextMessageId := s.nextMessageId + 1 },
     [ConnEvent.release])

/-- The messages handler: `OPTIONS` short-circuits before any connection;
`GET` lists, `POST` creates, anything else is 405; every branch releases
the connection it acquired. -/
def messagesHandler (ev : Event) (s : Store) (now : Nat) :
    Response × Store × List ConnEvent :=
  let method := ev.httpMethod.getD "GET"
  if method = "OPTIONS" then
    (optionsResp "Content-Type", s, [])
  else
    let res :=
      if method = "GET" then messagesList s
      else if method = "POST" then messagesCreate ev.body s now
      else (mkResp 405 (errJson "Method not allowed"), s, [ConnEvent.release])
    (res.1, res.2.1, ConnEvent.acquire :: res.2.2)

/-! ### Topics handler (`backend/topics/index.py`) -/

/-- Model of `get_user_id_from_token`: read the `X-Auth-Token` header (or
its lowercase variant), return `None` for an absent or empty token, and
otherwise return the id of the first row of an unordered scan of `users`
(`SELECT id FROM users LIMIT 1`) — the token's value is never consulted. -/
def get_user_id_from_token (headers : List (String × String)) (s : Store) : Option Nat :=
  let token := pyOrStr (headers.lookup "X-Auth-Token") (headers.lookup "x-auth-token")
  if !(strTruthy token) then none
  else
    match s.users.head? with
    | some u => some u.id
    | none => none

/-- One row of the `listTopics` aggregate: the topic, its creating user
(`LEFT JOIN users u ON t.user_id = u.id`), `COUNT(m.id)` and
`MAX(m.created_at)` over `LEFT JOIN messages m ON m.topic_id = t.id`. -/
structure TopicRow where
  topic : Topic
  user? : Option User
  message_count : Nat
  last_activity : Option Nat
deriving DecidableEq, Repr

/-- The aggregate row the `listTopics` query computes for one topic. -/
def topicRow (s : Store) (t : Topic) : TopicRow :=
  let msgs := s.messages.filter (fun m => m.topic_id == some t.id)
  ⟨t, s.users.find? (fun u => u.id == t.user_id), msgs.length,
   listMax (msgs.map Msg.created_at)⟩

/-- Boolean form of the ordering of
`ORDER BY last_activity DESC NULLS LAST, t.created_at DESC` on aggregate
rows: `a` may be listed (weakly) before `b`. -/
def rowBeforeB (a b : TopicRow) : Bool :=
  match a.last_activity, b.last_activity with
  | some x, some y => decide (y < x) || (x == y && decide (b.topic.created_at ≤ a.topic.created_at))
  | some _, none => true
  | none, some _ => false
  | none, none => decide (b.topic.created_at ≤ a.topic.created_at)

/-- Ordering relation of
`ORDER BY last_activity DESC NULLS LAST, t.created_at DESC`. -/
def rowBefore (a b : TopicRow) : Prop := rowBeforeB a b = true

instance : DecidableRel rowBefore := fun a b => instDecidableEqBool (rowBeforeB a b) true

theorem rowBeforeB_cases (a b : TopicRow) :
    rowBeforeB a b =
      match a.last_activity, b.last_activity with
      | some x, some y =>
        decide (y < x) || (x == y && decide (b.topic.created_at ≤ a.topic.created_at))
      | some _, none => true
      | none, some _ => false
      | none, none => decide (b.topic.created_at ≤ a.topic.created_at) := rfl

instance : IsTotal TopicRow rowBefore := by
  constructor
  intro a b
  unfold rowBefore
  rw [rowBeforeB_cases, rowBeforeB_cases]
  rcases a.last_activity with _ | x <;> rcases b.last_activity with _ | y <;> simp <;> omega

instance : IsTrans TopicRow rowBefore := by
  constructor
  intro a b c hab hbc
  unfold rowBefore at *
  rw [rowBeforeB_cases] at hab hbc ⊢
  rcases hA : a.last_activity with _ | x <;> rcases hB : b.last_activity with _ | y <;>
    rcases hC : c.last_activity with _ | z <;>
    rw [hA, hB] at hab <;> rw [hB, hC] at hbc <;> simp_all <;> omega

/-- The sorted aggregate rows of the `listTopics` query. -/
def listTopicsRows (s : Store) : List TopicRow :=
  List.insertionSort rowBefore (s.topics.map (topicRow s))

/-- JSON rendering of one `listTopics` entry; `last_activity` falls back to
the topic's own `created_at` when the aggregate is `NULL`, and the user
fields are `null` when the left join found no user. -/
def topicRowJson (r : TopicRow) : Json :=
  Json.obj
    [("id", Json.num r.topic.id), ("title", Json.str r.topic.title),
     ("created_at", Json.str (isoformat r.topic.created_at)),
     ("user", Json.obj
        [("id", match r.user? with | some u => Json.num u.id | none => Json.null),
         ("username", match r.user? with | some u => Json.str u.username | none => Json.null)]),
     ("message_count", Json.num r.message_count),
     ("last_activity", Json.str (isoformat (match r.last_activity with
        | some x => x
        | none => r.topic.created_at)))]

/-- The `GET /` branch of the topics handler: the aggregate join, ordered
by last activity descending with NULLS LAST. -/
def topicsList (s : Store) : Response × Store × List ConnEvent :=
  (mkResp 200 (Json.obj [("topics", Json.arr ((listTopicsRows s).map topicRowJson))]),
   s, [ConnEvent.release])

/-- The `POST /` branch: resolve the current user (401 when falsy), trim
the title (400 when blank), insert the topic owned by the resolved user
and answer 201 with `{id, title, created_at}`. -/
def topicsCreate (headers : List (String × String)) (b : BodyData) (s : Store)
    (now : Nat) : Response × Store × List ConnEvent :=
  let user_id := get_user_id_from_token headers s
  if !(natTruthy user_id) then
    (mkResp 401 (errJson "Unauthorized"), s, [ConnEvent.release])
  else
    let title := pyStrip (b.title.getD "")
    if title = "" then
      (mkResp 400 (errJson "Title is required"), s, [ConnEvent.release])
    else
      let newTopic : Topic := ⟨s.nextTopicId, title, user_id.getD 0, now⟩
      (mkResp 201 (Json.obj [("topic", Json.obj
          [("id", Json.num newTopic.id), ("title", Json.str newTopic.title),
           ("created_at", Json.str (isoformat newTopic.created_at))])]),
       { s with topics := s.topics ++ [newTopic], nextTopicId := s.nextTopicId + 1 },
       [ConnEvent.release])

/-- JSON rendering of a topic-scoped message with its joined author
(`LEFT JOIN users u ON m.user_id = u.id`); the user object is `null` when
the joined `u.id` is falsy. -/
def topicMsgJson (s : Store) (m : Msg) : Json :=
  let u? := m.user_id.bind (fun uid => s.users.find? (fun u => u.id == uid))
  Json.obj
    [("id", Json.num m.id), ("content", Json.str m.content),
     ("created_at", Json.str (isoformat m.created_at)),
     ("user", match u? with
       | some u => if u.id = 0 then Json.null
           else Json.obj [("id", Json.num u.id), ("username", Json.str u.username)]
       | none => Json.null)]

/-- The `GET .../messages` branch: require a truthy `topic_id` query
parameter (400 otherwise), then return that topic's messages ordered by
`created_at` ascending, each with its joined author. -/
def topicMessagesList (params : List (String × String)) (s : Store) :
    Response × Store × List ConnEvent :=
  let topic_id := params.lookup "topic_id"
  if !(strTruthy topic_id) then
    (mkResp 400 (errJson "topic_id is required"), s, [ConnEvent.release])
  else
    let tid := parseNat? (topic_id.getD "")
    let msgs := s.messages.filter (fun m => match m.topic_id, tid with
      | some a, some b => a == b
      | _, _ => false)
    let rows := List.insertionSort msgAsc msgs
    (mkResp 200 (Json.obj [("messages", Json.arr (rows.map (topicMsgJson s)))]),
     s, [ConnEvent.release])

/-- The `POST .../messages` branch: resolve the current user (401 when
falsy), require truthy content and `topic_id` (400 otherwise), insert the
message owned by the user and topic, and answer 201. -/
def topicMessagesCreate (headers : List (String × String)) (b : BodyData)
    (s : Store) (now : Nat) : Response × Store × List ConnEvent :=
  let user_id := get_user_id_from_token headers s
  if !(natTruthy user_id) then
    (mkResp 401 (errJson "Unauthorized"), s, [ConnEvent.release])
  else
    let content := pyStrip (b.content.getD "")
    let topic_id := b.topic_id
    if content = "" ∨ !(natTruthy topic_id) then
      (mkResp 400 (errJson "Content and topic_id are required"), s, [ConnEvent.release])
    else
      let newMsg : Msg := ⟨s.nextMessageId, content, user_id, topic_id, now⟩
      (mkResp 201 (Json.obj [("message", flatMsgJson newMsg)]),
       { s with messages := s.messages ++ [newMsg], nextMessageId := s.nextMessageId + 1 },
       [ConnEvent.release])

/-- The topics handler: `OPTIONS` short-circuits before any connection;
the four routes dispatch on method and path (`'/messages' in path` is a
substring test), anything else is 404; every branch releases the
connection it acquired. -/
def topicsHandler (ev : Event) (s : Store) (now : Nat) :
    Response × Store × List ConnEvent :=
  let method := ev.httpMethod.getD "GET"
  let path := ev.path.getD "/"
  let headers := ev.headers
  if method = "OPTIONS" then
    (optionsResp "Content-Type, X-Auth-Token", s, [])
  else
    let res :=
      if method = "GET" ∧ path = "/" then topicsList s
      else if method = "POST" ∧ path = "/" then topicsCreate headers ev.body s now
      else if method = "GET" ∧ strContains path "/messages" then
        topicMessagesList (ev.queryStringParameters.getD []) s
      else if method = "POST" ∧ strContains path "/messages" then
        topicMessagesCreate headers ev.body s now
      else (mkResp 404 (errJson "Not found"), s, [ConnEvent.release])
    (res.1, res.2.1, ConnEvent.acquire :: res.2.2)

/-! ### Spec-side predicates and canonical requests -/

/-- Spec ordering of a `listTopics` result: a row with no messages never
precedes a row with messages (NULLS LAST), and among rows with messages
the last activity is descending. -/
def sortsBefore (a b : TopicRow) : Prop :=
  (a.last_activity = none → b.last_activity = none) ∧
  ∀ x y, a.last_activity = some x → b.last_activity = some y → y ≤ x

/-- The second store extends the first by appending rows: no existing user,
topic or message row is modified or deleted. -/
def storeExtends (s t : Store) : Prop :=
  (∃ du, t.users = s.users ++ du) ∧
  (∃ dt, t.topics = s.topics ++ dt) ∧
  (∃ dm, t.messages = s.messages ++ dm)

/-- Every fixed human-readable error message a handler can emit. -/
def handlerErrorMessages : List String :=
  ["All fields are required", "Username or email already exists",
   "Email and password are required", "Invalid credentials", "Not found",
   "Content is required", "Method not allowed", "Unauthorized",
   "Title is required", "topic_id is required",
   "Content and topic_id are required"]

/-- An error-status response carries exactly the body
`{error: <fixed message>}` — never store error text or internal detail. -/
def errorShaped (r : Response) : Prop :=
  (r.statusCode = 400 ∨ r.statusCode = 401 ∨ r.statusCode = 404 ∨
   r.statusCode = 405 ∨ r.statusCode = 409) →
  ∃ msg, r.body = some (errJson msg) ∧ msg ∈ handlerErrorMessages

/-- The CORS/content header contract: `Access-Control-Allow-Origin: *`
always, and `Content-Type: application/json` whenever a body is present. -/
def corsOk (r : Response) : Prop :=
  ("Access-Control-Allow-Origin", "*") ∈ r.headers ∧
  (r.body ≠ none → ("Content-Type", "application/json") ∈ r.headers)

/-- Extract `body.user.id` from a register/login response. -/
def userIdOf (r : Response) : Option Int :=
  match r.body with
  | some j =>
    match j.getField "user" with
    | some u =>
      match u.getField "id" with
      | some (Json.num n) => some n
      | _ => none
    | _ => none
  | none => none

/-- The canonical `POST ?action=register` request. -/
def registerEvent (u e p : String) : Event :=
  ⟨some "POST", some "/", some [("action", "register")], [],
   ⟨some u, some e, some p, none, none, none⟩⟩

/-- The canonical `POST ?action=login` request. -/
def loginEvent (e p : String) : Event :=
  ⟨some "POST", some "/", some [("action", "login")], [],
   ⟨none, some e, some p, none, none, none⟩⟩

/-- The canonical `GET /` request. -/
def rootGetEvent : Event := ⟨some "GET", some "/", none, [], emptyBody⟩

/-- The canonical flat-board `POST` request with the given content. -/
def postMessageEvent (c : String) : Event :=
  ⟨some "POST", some "/", none, [], ⟨none, none, none, some c, none, none⟩⟩

/-! ### Concrete sample data for witnesses and counterexamples -/

/-- A first user row. -/
def demoAlice : User := ⟨1, "alice", "alice@example.com", "hash-a", 1⟩

/-- A second user row. -/
def demoBob : User := ⟨2, "bob", "bob@example.com", "hash-b", 2⟩

/-- A store holding two users and nothing else. -/
def demoStore : Store := ⟨[demoAlice, demoBob], [], [], 3, 1, 1⟩

/-- A store with two topics — one with a message, one without — for the
`listTopics` witness. -/
def demoTopicStore : Store :=
  ⟨[demoAlice], [⟨1, "first topic", 1, 6⟩, ⟨2, "second topic", 1, 9⟩],
   [⟨1, "hi", some 1, some 1, 8⟩], 2, 3, 2⟩

/-- The empty store. -/
def emptyStore : Store := ⟨[], [], [], 1, 1, 1⟩

/-! ### Helper lemmas -/

theorem authRegister_trace (b : BodyData) (s : Store) (now : Nat) (tok : String) :
    (authRegister b s now tok).2.2 = [ConnEvent.release] := by
  unfold authRegister
  dsimp only
  split
  · rfl
  · split <;> rfl

theorem authLogin_trace (b : BodyData) (s : Store) (tok : String) :
    (authLogin b s tok).2.2 = [ConnEvent.release] := by
  unfold authLogin
  dsimp only
  split
  · rfl
  · split <;> rfl

theorem messagesCreate_trace (b : BodyData) (s : Store) (now : Nat) :
    (messagesCreate b s now).2.2 = [ConnEvent.release] := by
  unfold messagesCreate
  dsimp only
  split <;> rfl

theorem topicsCreate_trace (headers : List (String × String)) (b : BodyData)
    (s : Store) (now : Nat) : (topicsCreate headers b s now).2.2 = [ConnEvent.release] := by
  unfold topicsCreate
  dsimp only
  split
  · rfl
  · split <;> rfl

theorem topicMessagesList_trace (params : List (String × String)) (s : Store) :
    (topicMessagesList params s).2.2 = [ConnEvent.release] := by
  unfold topicMessagesList
  dsimp only
  split <;> rfl

theorem topicMessagesCreate_trace (headers : List (String × String)) (b : BodyData)
    (s : Store) (now : Nat) :
    (topicMessagesCreate headers b s now).2.2 = [ConnEvent.release] := by
  unfold topicMessagesCreate
  dsimp only
  split
  · rfl
  · split <;> rfl

/-! ### Claims -/

/-- Claim C1 (code bug, evaluated at the failing input): in a store holding
users with ids `[1, 2]` and no issued tokens at all, a request presenting
an arbitrary unknown token `"token-of-bob"` does not resolve to "no
identity" as the identity-resolution contract requires — the resolver
returns the first user row (id 1), whatever the token's value. -/
theorem get_user_id_ignores_token_value :
    get_user_id_from_token [("X-Auth-Token", "token-of-bob")] demoStore = some 1 ∧
    demoStore.users.map User.id = [1, 2] := by
  constructor
  · rfl
  · rfl

/-- Claim C3: in each of the three handlers, a non-`OPTIONS` request
acquires exactly one store connection at entry and releases it exactly
once before the response is returned, on every exit path; an `OPTIONS`
request never touches the store. -/
theorem handlers_acquire_release_discipline (ev : Event) (s : Store) (now : Nat)
    (tok : String) :
    (authHandler ev s now tok).2.2 =
      (if ev.httpMethod.getD "GET" = "OPTIONS" then []
       else [ConnEvent.acquire, ConnEvent.release]) ∧
    (messagesHandler ev s now).2.2 =
      (if ev.httpMethod.getD "GET" = "OPTIONS" then []
       else [ConnEvent.acquire, ConnEvent.release]) ∧
    (topicsHandler ev s now).2.2 =
      (if ev.httpMethod.getD "GET" = "OPTIONS" then []
       else [ConnEvent.acquire, ConnEvent.release]) := by
  refine ⟨?_, ?_, ?_⟩
  · unfold authHandler
    dsimp only
    split
    · rfl
    · split
      · simp [authRegister_trace]
      · split
        · simp [authLogin_trace]
        · rfl
  · unfold messagesHandler
    dsimp only
    split
    · rfl
    · split
      · rfl
      · split
        · simp [messagesCreate_trace]
        · rfl
  · unfold topicsHandler
    dsimp only
    split
    · rfl
    · split
      · rfl
      · split
        · simp [topicsCreate_trace]
        · split
          · simp [topicMessagesList_trace]
          · split
            · simp [topicMessagesCreate_trace]
            · rfl

theorem storeExtends_refl (s : Store) : storeExtends s s :=
  ⟨⟨[], (List.append_nil _).symm⟩, ⟨[], (List.append_nil _).symm⟩,
   ⟨[], (List.append_nil _).symm⟩⟩

theorem storeExtends_addUser (s : Store) (u : User) (n : Nat) :
    storeExtends s ⟨s.users ++ [u], s.topics, s.messages, n, s.nextTopicId, s.nextMessageId⟩ :=
  ⟨⟨[u], rfl⟩, ⟨[], (List.append_nil _).symm⟩, ⟨[], (List.append_nil _).symm⟩⟩

theorem storeExtends_addTopic (s : Store) (t : Topic) (n : Nat) :
    storeExtends s ⟨s.users, s.topics ++ [t], s.messages, s.nextUserId, n, s.nextMessageId⟩ :=
  ⟨⟨[], (List.append_nil _).symm⟩, ⟨[t], rfl⟩, ⟨[], (List.append_nil _).symm⟩⟩

theorem storeExtends_addMsg (s : Store) (m : Msg) (n : Nat) :
    storeExtends s ⟨s.users, s.topics, s.messages ++ [m], s.nextUserId, s.nextTopicId, n⟩ :=
  ⟨⟨[], (List.append_nil _).symm⟩, ⟨[], (List.append_nil _).symm⟩, ⟨[m], rfl⟩⟩

theorem authRegister_extends (b : BodyData) (s : Store) (now : Nat) (tok : String) :
    storeExtends s (authRegister b s now tok).2.1 := by
  unfold authRegister
  dsimp only
  split
  · exact storeExtends_refl s
  · split
    · exact storeExtends_refl s
    · exact storeExtends_addUser s _ _

theorem authLogin_extends (b : BodyData) (s : Store) (tok : String) :
    storeExtends s (authLogin b s tok).2.1 := by
  unfold authLogin
  dsimp only
  split
  · exact storeExtends_refl s
  · split
    · exact storeExtends_refl s
    · exact storeExtends_refl s

theorem messagesCreate_extends (b : BodyData) (s : Store) (now : Nat) :
    storeExtends s (messagesCreate b s now).2.1 := by
  unfold messagesCreate
  dsimp only
  split
  · exact storeExtends_refl s
  · exact storeExtends_addMsg s _ _

theorem topicsCreate_extends (headers : List (String × String)) (b : BodyData)
    (s : Store) (now : Nat) : storeExtends s (topicsCreate headers b s now).2.1 := by
  unfold topicsCreate
  dsimp only
  split
  · exact storeExtends_refl s
  · split
    · exact storeExtends_refl s
    · exact storeExtends_addTopic s _ _

theorem topicMessagesList_store (params : List (String × String)) (s : Store) :
    (topicMessagesList params s).2.1 = s := by
  unfold topicMessagesList
  dsimp only
  split <;> rfl

theorem topicMessagesCreate_extends (headers : List (String × String)) (b : BodyData)
    (s : Store) (now : Nat) : storeExtends s (topicMessagesCreate headers b s now).2.1 := by
  unfold topicMessagesCreate
  dsimp only
  split
  · exact storeExtends_refl s
  · split
    · exact storeExtends_refl s
    · exact storeExtends_addMsg s _ _

/-- Claim C9: every operation of every handler either leaves the store
unchanged or appends new rows; existing user, topic and message rows are
never modified or deleted, whatever the request and the store state. -/
theorem handlers_append_only (ev : Event) (s : Store) (now : Nat) (tok : String) :
    storeExtends s (authHandler ev s now tok).2.1 ∧
    storeExtends s (messagesHandler ev s now).2.1 ∧
    storeExtends s (topicsHandler ev s now).2.1 := by
  refine ⟨?_, ?_, ?_⟩
  · unfold authHandler
    dsimp only
    split
    · exact storeExtends_refl s
    · split
      · exact authRegister_extends ev.body s now tok
      · split
        · exact authLogin_extends ev.body s tok
        · exact storeExtends_refl s
  · unfold messagesHandler
    dsimp only
    split
    · exact storeExtends_refl s
    · split
      · exact storeExtends_refl s
      · split
        · exact messagesCreate_extends ev.body s now
        · exact storeExtends_refl s
  · unfold topicsHandler
    dsimp only
    split
    · exact storeExtends_refl s
    · split
      · exact storeExtends_refl s
      · split
        · exact topicsCreate_extends ev.headers ev.body s now
        · split
          · show storeExtends s (topicMessagesList (ev.queryStringParameters.getD []) s).2.1
            rw [topicMessagesList_store]
            exact storeExtends_refl s
          · split
            · exact topicMessagesCreate_extends ev.headers ev.body s now
            · exact storeExtends_refl s

theorem get_user_id_of_lookup (headers : List (String × String)) (s : Store)
    (v : String) (hl : headers.lookup "X-Auth-Token" = some v) (hv : v ≠ "") :
    get_user_id_from_token headers s = s.users.head?.map User.id := by
  have ht : strTruthy (some v) = true := by simp [strTruthy, hv]
  unfold get_user_id_from_token pyOrStr
  rw [hl]
  simp only [ht, if_true, Bool.not_true, Bool.false_eq_true, if_false]
  cases s.users <;> rfl

theorem topicsCreate_congr (b : BodyData) (s : Store) (now : Nat)
    (h1 h2 : List (String × String))
    (heq : get_user_id_from_token h1 s = get_user_id_from_token h2 s) :
    topicsCreate h1 b s now = topicsCreate h2 b s now := by
  unfold topicsCreate
  rw [heq]

theorem topicMessagesCreate_congr (b : BodyData) (s : Store) (now : Nat)
    (h1 h2 : List (String × String))
    (heq : get_user_id_from_token h1 s = get_user_id_from_token h2 s) :
    topicMessagesCreate h1 b s now = topicMessagesCreate h2 b s now := by
  unfold topicMessagesCreate
  rw [heq]

theorem topicsHandler_headers_congr (m p : Option String)
    (q : Option (List (String × String))) (b : BodyData)
    (h1 h2 : List (String × String)) (s : Store) (now : Nat)
    (heq : get_user_id_from_token h1 s = get_user_id_from_token h2 s) :
    topicsHandler ⟨m, p, q, h1, b⟩ s now = topicsHandler ⟨m, p, q, h2, b⟩ s now := by
  unfold topicsHandler
  dsimp only
  rw [topicsCreate_congr b s now h1 h2 heq, topicMessagesCreate_congr b s now h1 h2 heq]

/-- Claim C10: the topics handler never reads the value of a presented
token beyond its truthiness — for a fixed store and request, swapping one
non-empty `X-Auth-Token` value for any other non-empty value yields an
identical response, and whenever a non-empty token is presented the
resolved identity is the first user row of the store (if any),
regardless of which token was presented. -/
theorem token_value_noninterference :
    (∀ (m p : Option String) (q : Option (List (String × String))) (b : BodyData)
       (rest : List (String × String)) (s : Store) (now : Nat) (v1 v2 : String),
      v1 ≠ "" → v2 ≠ "" →
      topicsHandler ⟨m, p, q, ("X-Auth-Token", v1) :: rest, b⟩ s now =
        topicsHandler ⟨m, p, q, ("X-Auth-Token", v2) :: rest, b⟩ s now) ∧
    (∀ (headers : List (String × String)) (s : Store) (v : String),
      headers.lookup "X-Auth-Token" = some v → v ≠ "" →
      get_user_id_from_token headers s = s.users.head?.map User.id) := by
  constructor
  · intro m p q b rest s now v1 v2 hv1 hv2
    apply topicsHandler_headers_congr
    rw [get_user_id_of_lookup _ s v1 (by simp [List.lookup]) hv1,
        get_user_id_of_lookup _ s v2 (by simp [List.lookup]) hv2]
  · intro headers s v hl hv
    exact get_user_id_of_lookup headers s v hl hv

/-- Witness for C10 at concrete inputs: two different non-empty tokens
produce the same `createTopic` outcome on the two-user demo store. -/
theorem token_value_noninterference_witness :
    topicsHandler ⟨some "POST", some "/", none, [("X-Auth-Token", "aaa")], emptyBody⟩
        demoStore 9 =
      topicsHandler ⟨some "POST", some "/", none, [("X-Auth-Token", "bbb")], emptyBody⟩
        demoStore 9 :=
  token_value_noninterference.1 (some "POST") (some "/") none emptyBody [] demoStore 9
    "aaa" "bbb" (by decide) (by decide)

theorem errorShaped_mkResp (code : Nat) (msg : String)
    (hm : msg ∈ handlerErrorMessages) : errorShaped (mkResp code (errJson msg)) :=
  fun _ => ⟨msg, rfl, hm⟩

theorem errorShaped_success (code : Nat) (j : Json) (h : code = 200 ∨ code = 201) :
    errorShaped (mkResp code j) := by
  intro hc
  rcases h with rfl | rfl <;> rcases hc with h | h | h | h | h <;> simp [mkResp] at h

theorem errorShaped_options (ah : String) : errorShaped (optionsResp ah) := by
  intro hc
  rcases hc with h | h | h | h | h <;> simp [optionsResp] at h

theorem corsOk_mkResp (code : Nat) (j : Json) : corsOk (mkResp code j) :=
  ⟨List.Mem.tail _ (List.Mem.head _), fun _ => List.Mem.head _⟩

theorem corsOk_options (ah : String) : corsOk (optionsResp ah) :=
  ⟨List.Mem.head _, fun hb => absurd rfl hb⟩

theorem authRegister_resp (b : BodyData) (s : Store) (now : Nat) (tok : String) :
    errorShaped (authRegister b s now tok).1 ∧ corsOk (authRegister b s now tok).1 := by
  unfold authRegister
  dsimp only
  split
  · exact ⟨errorShaped_mkResp _ _ (by decide), corsOk_mkResp _ _⟩
  · split
    · exact ⟨errorShaped_mkResp _ _ (by decide), corsOk_mkResp _ _⟩
    · exact ⟨errorShaped_success _ _ (Or.inr rfl), corsOk_mkResp _ _⟩

theorem authLogin_resp (b : BodyData) (s : Store) (tok : String) :
    errorShaped (authLogin b s tok).1 ∧ corsOk (authLogin b s tok).1 := by
  unfold authLogin
  dsimp only
  split
  · exact ⟨errorShaped_mkResp _ _ (by decide), corsOk_mkResp _ _⟩
  · split
    · exact ⟨errorShaped_mkResp _ _ (by decide), corsOk_mkResp _ _⟩
    · exact ⟨errorShaped_success _ _ (Or.inl rfl), corsOk_mkResp _ _⟩

theorem messagesCreate_resp (b : BodyData) (s : Store) (now : Nat) :
    errorShaped (messagesCreate b s now).1 ∧ corsOk (messagesCreate b s now).1 := by
  unfold messagesCreate
  dsimp only
  split
  · exact ⟨errorShaped_mkResp _ _ (by decide), corsOk_mkResp _ _⟩
  · exact ⟨errorShaped_success _ _ (Or.inr rfl), corsOk_mkResp _ _⟩

theorem topicsCreate_resp (headers : List (String × String)) (b : BodyData)
    (s : Store) (now : Nat) :
    errorShaped (topicsCreate headers b s now).1 ∧ corsOk (topicsCreate headers b s now).1 := by
  unfold topicsCreate
  dsimp only
  split
  · exact ⟨errorShaped_mkResp _ _ (by decide), corsOk_mkResp _ _⟩
  · split
    · exact ⟨errorShaped_mkResp _ _ (by decide), corsOk_mkResp _ _⟩
    · exact ⟨errorShaped_success _ _ (Or.inr rfl), corsOk_mkResp _ _⟩

theorem topicMessagesList_resp (params : List (String × String)) (s : Store) :
    errorShaped (topicMessagesList params s).1 ∧ corsOk (topicMessagesList params s).1 := by
  unfold topicMessagesList
  dsimp only
  split
  · exact ⟨errorShaped_mkResp _ _ (by decide), corsOk_mkResp _ _⟩
  · exact ⟨errorShaped_success _ _ (Or.inl rfl), corsOk_mkResp _ _⟩

theorem topicMessagesCreate_resp (headers : List (String × String)) (b : BodyData)
    (s : Store) (now : Nat) :
    errorShaped (topicMessagesCreate headers b s now).1 ∧
    corsOk (topicMessagesCreate headers b s now).1 := by
  unfold topicMessagesCreate
  dsimp only
  split
  · exact ⟨errorShaped_mkResp _ _ (by decide), corsOk_mkResp _ _⟩
  · split
    · exact ⟨errorShaped_mkResp _ _ (by decide), corsOk_mkResp _ _⟩
    · exact ⟨errorShaped_success _ _ (Or.inr rfl), corsOk_mkResp _ _⟩

/-- Claim C8: every error response (400/401/404/405/409) of each handler
has a body of exactly the shape `{error: <fixed human-readable message>}`
with no store error text, and every response carries
`Access-Control-Allow-Origin: *` and, whenever a body is present,
`Content-Type: application/json`. -/
theorem responses_error_shape_and_cors (ev : Event) (s : Store) (now : Nat) (tok : String) :
    (errorShaped (authHandler ev s now tok).1 ∧ corsOk (authHandler ev s now tok).1) ∧
    (errorShaped (messagesHandler ev s now).1 ∧ corsOk (messagesHandler ev s now).1) ∧
    (errorShaped (topicsHandler ev s now).1 ∧ corsOk (topicsHandler ev s now).1) := by
  refine ⟨?_, ?_, ?_⟩
  · unfold authHandler
    dsimp only
    split
    · exact ⟨errorShaped_options _, corsOk_options _⟩
    · split
      · exact authRegister_resp ev.body s now tok
      · split
        · exact authLogin_resp ev.body s tok
        · exact ⟨errorShaped_mkResp _ _ (by decide), corsOk_mkResp _ _⟩
  · unfold messagesHandler
    dsimp only
    split
    · exact ⟨errorShaped_options _, corsOk_options _⟩
    · split
      · exact ⟨errorShaped_success _ _ (Or.inl rfl), corsOk_mkResp _ _⟩
      · split
        · exact messagesCreate_resp ev.body s now
        · exact ⟨errorShaped_mkResp _ _ (by decide), corsOk_mkResp _ _⟩
  · unfold topicsHandler
    dsimp only
    split
    · exact ⟨errorShaped_options _, corsOk_options _⟩
    · split
      · exact ⟨errorShaped_success _ _ (Or.inl rfl), corsOk_mkResp _ _⟩
      · split
        · exact topicsCreate_resp ev.headers ev.body s now
        · split
          · exact topicMessagesList_resp (ev.queryStringParameters.getD []) s
          · split
            · exact topicMessagesCreate_resp ev.headers ev.body s now
            · exact ⟨errorShaped_mkResp _ _ (by decide), corsOk_mkResp _ _⟩

/-- Witness for C8 at a concrete input: the auth handler's 404 response on
an unmatched route has an `{error: ...}` body drawn from the fixed message
list. -/
theorem responses_error_shape_and_cors_witness :
    ∃ msg, (authHandler rootGetEvent emptyStore 0 "t").1.body = some (errJson msg) ∧
      msg ∈ handlerErrorMessages :=
  (responses_error_shape_and_cors rootGetEvent emptyStore 0 "t").1.1 (by decide)

set_option linter.unnecessarySeqFocus false in
theorem rowBefore_imp_sortsBefore (a b : TopicRow) (h : rowBefore a b) :
    sortsBefore a b := by
  unfold rowBefore at h
  rw [rowBeforeB_cases] at h
  unfold sortsBefore
  rcases hA : a.last_activity with _ | x <;> rcases hB : b.last_activity with _ | y <;>
    rw [hA, hB] at h <;> simp_all <;> omega

theorem topicRow_user (s : Store) (t : Topic) (h : ∃ u ∈ s.users, u.id = t.user_id) :
    ∃ u ∈ s.users, u.id = t.user_id ∧ (topicRow s t).user? = some u := by
  obtain ⟨u0, hm, hid⟩ := h
  have hsome : (s.users.find? (fun u => u.id == t.user_id)).isSome := by
    rw [List.find?_isSome]
    exact ⟨u0, hm, by simp [hid]⟩
  obtain ⟨u, hu⟩ := Option.isSome_iff_exists.mp hsome
  refine ⟨u, List.mem_of_find?_eq_some hu, ?_, ?_⟩
  · have hp := List.find?_some hu
    simpa using hp
  · show s.users.find? (fun u => u.id == t.user_id) = some u
    exact hu

/-- Claim C2: `listTopics` (GET `/`) answers 200 without changing the
store; its body lists one aggregate row per topic (a permutation of the
topics), each row's `message_count` is the number of messages whose
`topic_id` is that topic and its `last_activity` is the maximum message
`created_at` (NULL when the topic has no messages, rendered as the topic's
own `created_at`); rows are ordered by last activity descending and every
topic with no messages sorts after every topic that has one (NULLS LAST);
each topic is listed with its creating user. -/
theorem listTopics_spec (s : Store) (now : Nat)
    (hFK : ∀ t ∈ s.topics, ∃ u ∈ s.users, u.id = t.user_id) :
    (topicsHandler rootGetEvent s now).1.statusCode = 200 ∧
    (topicsHandler rootGetEvent s now).2.1 = s ∧
    (topicsHandler rootGetEvent s now).1.body =
      some (Json.obj [("topics", Json.arr ((listTopicsRows s).map topicRowJson))]) ∧
    (listTopicsRows s).Perm (s.topics.map (topicRow s)) ∧
    List.Pairwise sortsBefore (listTopicsRows s) ∧
    (∀ t ∈ s.topics,
      (topicRow s t).message_count =
        (s.messages.filter (fun m => m.topic_id == some t.id)).length ∧
      (topicRow s t).last_activity =
        listMax ((s.messages.filter (fun m => m.topic_id == some t.id)).map Msg.created_at) ∧
      Json.getField (topicRowJson (topicRow s t)) "last_activity" =
        some (Json.str (isoformat (match (topicRow s t).last_activity with
          | some x => x
          | none => t.created_at))) ∧
      ∃ u ∈ s.users, u.id = t.user_id ∧ (topicRow s t).user? = some u) := by
  refine ⟨rfl, rfl, rfl, List.perm_insertionSort _ _, ?_, ?_⟩
  · exact List.Pairwise.imp (fun h => rowBefore_imp_sortsBefore _ _ h)
      (List.sorted_insertionSort rowBefore (s.topics.map (topicRow s)))
  · intro t ht
    refine ⟨rfl, rfl, ?_, topicRow_user s t (hFK t ht)⟩
    rcases hL : (topicRow s t).last_activity with _ | x
    · simp only [topicRowJson, Json.getField, List.lookup, hL]
      norm_num
      rfl
    · simp [topicRowJson, Json.getField, List.lookup, hL]

/-- Witness for C2 at a concrete store: one topic with a message, one
without; the handler answers 200. -/
theorem listTopics_spec_witness :
    (topicsHandler rootGetEvent demoTopicStore 0).1.statusCode = 200 :=
  (listTopics_spec demoTopicStore 0 (by decide)).1

theorem authHandler_register (u e p : String) (s : Store) (now : Nat) (tok : String) :
    authHandler (registerEvent u e p) s now tok =
      ((authRegister ⟨some u, some e, some p, none, none, none⟩ s now tok).1,
       (authRegister ⟨some u, some e, some p, none, none, none⟩ s now tok).2.1,
       ConnEvent.acquire ::
         (authRegister ⟨some u, some e, some p, none, none, none⟩ s now tok).2.2) := rfl

theorem authHandler_login (e p : String) (s : Store) (now : Nat) (tok : String) :
    authHandler (loginEvent e p) s now tok =
      ((authLogin ⟨none, some e, some p, none, none, none⟩ s tok).1,
       (authLogin ⟨none, some e, some p, none, none, none⟩ s tok).2.1,
       ConnEvent.acquire ::
         (authLogin ⟨none, some e, some p, none, none, none⟩ s tok).2.2) := rfl

theorem authRegister_blank (b : BodyData) (s : Store) (now : Nat) (tok : String)
    (h : pyStrip (b.username.getD "") = "" ∨ pyStrip (b.email.getD "") = "" ∨
      pyStrip (b.password.getD "") = "") :
    authRegister b s now tok =
      (mkResp 400 (errJson "All fields are required"), s, [ConnEvent.release]) := by
  unfold authRegister
  dsimp only
  rw [if_pos h]

theorem authRegister_dup (b : BodyData) (s : Store) (now : Nat) (tok : String)
    (hne : ¬(pyStrip (b.username.getD "") = "" ∨ pyStrip (b.email.getD "") = "" ∨
      pyStrip (b.password.getD "") = "")) (w : User)
    (hw : s.users.find? (fun x => x.username == pyStrip (b.username.getD "") ||
      x.email == pyStrip (b.email.getD "")) = some w) :
    authRegister b s now tok =
      (mkResp 409 (errJson "Username or email already exists"), s, [ConnEvent.release]) := by
  unfold authRegister
  dsimp only
  rw [if_neg hne, hw]

theorem authRegister_fresh (b : BodyData) (s : Store) (now : Nat) (tok : String)
    (hne : ¬(pyStrip (b.username.getD "") = "" ∨ pyStrip (b.email.getD "") = "" ∨
      pyStrip (b.password.getD "") = ""))
    (hf : s.users.find? (fun x => x.username == pyStrip (b.username.getD "") ||
      x.email == pyStrip (b.email.getD "")) = none) :
    authRegister b s now tok =
      (mkResp 201 (Json.obj
          [("user", userJson ⟨s.nextUserId, pyStrip (b.username.getD ""),
              pyStrip (b.email.getD ""), hash_password (pyStrip (b.password.getD "")), now⟩),
           ("token", Json.str tok)]),
       { s with
           users := s.users ++ [⟨s.nextUserId, pyStrip (b.username.getD ""),
             pyStrip (b.email.getD ""), hash_password (pyStrip (b.password.getD "")), now⟩],
           nextUserId := s.nextUserId + 1 },
       [ConnEvent.release]) := by
  unfold authRegister
  dsimp only
  rw [if_neg hne, hf]

theorem authLogin_blank (b : BodyData) (s : Store) (tok : String)
    (h : pyStrip (b.email.getD "") = "" ∨ pyStrip (b.password.getD "") = "") :
    authLogin b s tok =
      (mkResp 400 (errJson "Email and password are required"), s, [ConnEvent.release]) := by
  unfold authLogin
  dsimp only
  rw [if_pos h]

theorem authLogin_found (b : BodyData) (s : Store) (tok : String)
    (hne : ¬(pyStrip (b.email.getD "") = "" ∨ pyStrip (b.password.getD "") = ""))
    (w : User)
    (hw : s.users.find? (fun x => x.email == pyStrip (b.email.getD "") &&
      x.password_hash == hash_password (pyStrip (b.password.getD ""))) = some w) :
    authLogin b s tok =
      (mkResp 200 (Json.obj [("user", userJson w), ("token", Json.str tok)]),
       s, [ConnEvent.release]) := by
  unfold authLogin
  dsimp only
  rw [if_neg hne, hw]

/-- Claim C5: register trims username, email and password and answers 400
whenever any of the three is empty after trimming — any combination of
blank or whitespace-only fields — leaving the store unchanged. -/
theorem register_blank_validation (s : Store) (u e p : String) (now : Nat) (tok : String)
    (h : pyStrip u = "" ∨ pyStrip e = "" ∨ pyStrip p = "") :
    (authHandler (registerEvent u e p) s now tok).1.statusCode = 400 ∧
    (authHandler (registerEvent u e p) s now tok).1.body =
      some (errJson "All fields are required") ∧
    (authHandler (registerEvent u e p) s now tok).2.1 = s := by
  rw [authHandler_register, authRegister_blank (⟨some u, some e, some p, none, none, none⟩ : BodyData) s now tok h]
  exact ⟨rfl, rfl, rfl⟩

/-- Witness for C5: a whitespace-only username yields 400. -/
theorem register_blank_validation_witness :
    (authHandler (registerEvent "   " "e@x.io" "pw") emptyStore 0 "t").1.statusCode = 400 :=
  (register_blank_validation emptyStore "   " "e@x.io" "pw" 0 "t" (Or.inl (by decide))).1

/-- Claim C4: for a register request whose three trimmed fields are
non-empty, the handler answers 409 if and only if some existing user has
the same (trimmed, case-sensitively compared) username or email; on a 409
the store is unchanged — no user is inserted. -/
theorem register_conflict_iff (s : Store) (u e p : String) (now : Nat) (tok : String)
    (hu : pyStrip u ≠ "") (he : pyStrip e ≠ "") (hp : pyStrip p ≠ "") :
    ((authHandler (registerEvent u e p) s now tok).1.statusCode = 409 ↔
      ∃ w ∈ s.users, w.username = pyStrip u ∨ w.email = pyStrip e) ∧
    ((authHandler (registerEvent u e p) s now tok).1.statusCode = 409 →
      (authHandler (registerEvent u e p) s now tok).2.1 = s) := by
  rw [authHandler_register]
  have hne : ¬(pyStrip u = "" ∨ pyStrip e = "" ∨ pyStrip p = "") := by
    push_neg
    exact ⟨hu, he, hp⟩
  rcases hf : s.users.find? (fun x => x.username == pyStrip u || x.email == pyStrip e)
    with _ | w
  · rw [authRegister_fresh (⟨some u, some e, some p, none, none, none⟩ : BodyData) s now tok hne hf]
    constructor
    · constructor
      · intro h
        simp [mkResp] at h
      · rintro ⟨w, hm, hor⟩
        rw [List.find?_eq_none] at hf
        have := hf w hm
        simp only [Bool.or_eq_true, beq_iff_eq] at this
        exact absurd hor this
    · intro h
      simp [mkResp] at h
  · rw [authRegister_dup (⟨some u, some e, some p, none, none, none⟩ : BodyData) s now tok hne w hf]
    refine ⟨⟨fun _ => ?_, fun _ => rfl⟩, fun _ => rfl⟩
    have hp2 := List.find?_some hf
    have hm := List.mem_of_find?_eq_some hf
    simp only [Bool.or_eq_true, beq_iff_eq] at hp2
    exact ⟨w, hm, hp2⟩

/-- Witness for C4: registering a username already present in the store
yields 409. -/
theorem register_conflict_iff_witness :
    (authHandler (registerEvent "alice" "new@x.io" "pw") demoStore 5 "t").1.statusCode = 409 :=
  (register_conflict_iff demoStore "alice" "new@x.io" "pw" 5 "t"
    (by decide) (by decide) (by decide)).1.mpr ⟨demoAlice, by decide, Or.inl (by decide)⟩

/-- Claim C6: a successful register (201) followed immediately by a login
with the same email and password answers 200 with the same user id — the
id the register response returned, namely the id the store assigned. -/
theorem register_login_roundtrip (s : Store) (u e p : String) (n1 n2 : Nat)
    (t1 t2 : String)
    (h201 : (authHandler (registerEvent u e p) s n1 t1).1.statusCode = 201) :
    (authHandler (loginEvent e p)
        (authHandler (registerEvent u e p) s n1 t1).2.1 n2 t2).1.statusCode = 200 ∧
    userIdOf (authHandler (loginEvent e p)
        (authHandler (registerEvent u e p) s n1 t1).2.1 n2 t2).1 =
      userIdOf (authHandler (registerEvent u e p) s n1 t1).1 ∧
    userIdOf (authHandler (registerEvent u e p) s n1 t1).1 =
      some (s.nextUserId : Int) := by
  rw [authHandler_register] at h201 ⊢
  by_cases hb : (pyStrip u = "" ∨ pyStrip e = "" ∨ pyStrip p = "")
  · rw [authRegister_blank (⟨some u, some e, some p, none, none, none⟩ : BodyData)
      s n1 t1 hb] at h201
    simp [mkResp] at h201
  · rcases hf : s.users.find? (fun x => x.username == pyStrip u || x.email == pyStrip e)
      with _ | w
    · push_neg at hb
      have hne2 : ¬(pyStrip e = "" ∨ pyStrip p = "") := by
        push_neg
        exact ⟨hb.2.1, hb.2.2⟩
      have hne : ¬(pyStrip u = "" ∨ pyStrip e = "" ∨ pyStrip p = "") := by
        push_neg
        exact hb
      rw [authRegister_fresh (⟨some u, some e, some p, none, none, none⟩ : BodyData)
        s n1 t1 hne hf]
      dsimp only [Option.getD]
      rw [authHandler_login]
      have h1 : s.users.find? (fun x => x.email == pyStrip e &&
          x.password_hash == hash_password (pyStrip p)) = none := by
        rw [List.find?_eq_none]
        intro x hx
        rw [List.find?_eq_none] at hf
        have h2 := hf x hx
        simp only [Bool.or_eq_true, beq_iff_eq, not_or] at h2
        simp only [Bool.and_eq_true, beq_iff_eq, not_and]
        intro hmail
        exact absurd hmail h2.2
      have hfind : (s.users ++
          [(⟨s.nextUserId, pyStrip u, pyStrip e, hash_password (pyStrip p), n1⟩ : User)]).find?
            (fun x => x.email == pyStrip e &&
              x.password_hash == hash_password (pyStrip p)) =
          some ⟨s.nextUserId, pyStrip u, pyStrip e, hash_password (pyStrip p), n1⟩ := by
        rw [List.find?_append, h1]
        simp [List.find?]
      rw [authLogin_found (⟨none, some e, some p, none, none, none⟩ : BodyData)
        { s with
            users := s.users ++
              [⟨s.nextUserId, pyStrip u, pyStrip e, hash_password (pyStrip p), n1⟩],
            nextUserId := s.nextUserId + 1 }
        t2 hne2
        ⟨s.nextUserId, pyStrip u, pyStrip e, hash_password (pyStrip p), n1⟩ hfind]
      exact ⟨rfl, rfl, rfl⟩
    · rw [authRegister_dup (⟨some u, some e, some p, none, none, none⟩ : BodyData)
        s n1 t1 (by push_neg at hb ⊢; exact hb) w hf] at h201
      simp [mkResp] at h201

set_option maxRecDepth 200000 in
/-- Witness for C6: on the empty store, register then login with the same
credentials answers 200. -/
theorem register_login_roundtrip_witness :
    (authHandler (loginEvent "a@x.io" "pw")
        (authHandler (registerEvent "alice" "a@x.io" "pw") emptyStore 1 "t1").2.1
        2 "t2").1.statusCode = 200 :=
  (register_login_roundtrip emptyStore "alice" "a@x.io" "pw" 1 2 "t1" "t2" (by decide)).1

theorem messagesHandler_post (c : String) (s : Store) (now : Nat) :
    messagesHandler (postMessageEvent c) s now =
      ((messagesCreate ⟨none, none, none, some c, none, none⟩ s now).1,
       (messagesCreate ⟨none, none, none, some c, none, none⟩ s now).2.1,
       ConnEvent.acquire ::
         (messagesCreate ⟨none, none, none, some c, none, none⟩ s now).2.2) := rfl

theorem messagesHandler_get (s : Store) (now : Nat) :
    messagesHandler rootGetEvent s now =
      ((messagesList s).1, (messagesList s).2.1,
       ConnEvent.acquire :: (messagesList s).2.2) := rfl

theorem messagesCreate_blank (b : BodyData) (s : Store) (now : Nat)
    (h : pyStrip (b.content.getD "") = "") :
    messagesCreate b s now =
      (mkResp 400 (errJson "Content is required"), s, [ConnEvent.release]) := by
  unfold messagesCreate
  dsimp only
  rw [if_pos h]

theorem messagesCreate_ok (b : BodyData) (s : Store) (now : Nat)
    (h : pyStrip (b.content.getD "") ≠ "") :
    messagesCreate b s now =
      (mkResp 201 (Json.obj [("message",
          flatMsgJson ⟨s.nextMessageId, pyStrip (b.content.getD ""), none, none, now⟩)]),
       { s with
           messages := s.messages ++
             [⟨s.nextMessageId, pyStrip (b.content.getD ""), none, none, now⟩],
           nextMessageId := s.nextMessageId + 1 },
       [ConnEvent.release]) := by
  unfold messagesCreate
  dsimp only
  rw [if_neg h]

theorem head?_of_pairwise_fresh (old : List Msg) (m : Msg) (l : List Msg)
    (hperm : l.Perm (old ++ [m])) (hsort : List.Pairwise msgDesc l)
    (hf : ∀ x ∈ old, x.created_at < m.created_at) : l.head? = some m := by
  cases l with
  | nil =>
    have hlen := hperm.length_eq
    simp at hlen
  | cons h t =>
    have hm : m ∈ h :: t := hperm.mem_iff.mpr (by simp)
    rcases List.mem_cons.mp hm with rfl | hmt
    · rfl
    · have hrel : msgDesc h m := (List.pairwise_cons.mp hsort).1 m hmt
      have hh : h ∈ old ++ [m] := hperm.mem_iff.mp (List.mem_cons_self h t)
      rcases List.mem_append.mp hh with hho | hhm
      · have hlt := hf h hho
        unfold msgDesc at hrel
        omega
      · simp only [List.mem_singleton] at hhm
        rw [hhm]
        rfl

/-- Claim C7: on the flat board, posting whitespace-only content answers
400 and leaves the store unchanged; posting non-empty trimmed content
answers 201 and appends the message, and a subsequent list answers 200
without changing the store, returning all messages ordered by
`created_at` descending — each rendered as `{id, content, created_at}` —
with the newly created message at the head. -/
theorem messages_post_then_list (s : Store) (c : String) (now now2 : Nat)
    (hfresh : ∀ m ∈ s.messages, m.created_at < now) :
    (pyStrip c = "" →
      (messagesHandler (postMessageEvent c) s now).1.statusCode = 400 ∧
      (messagesHandler (postMessageEvent c) s now).2.1 = s) ∧
    (pyStrip c ≠ "" →
      (messagesHandler (postMessageEvent c) s now).1.statusCode = 201 ∧
      (messagesHandler (postMessageEvent c) s now).2.1.messages =
        s.messages ++ [⟨s.nextMessageId, pyStrip c, none, none, now⟩] ∧
      (messagesHandler rootGetEvent
          (messagesHandler (postMessageEvent c) s now).2.1 now2).1.statusCode = 200 ∧
      (messagesHandler rootGetEvent
          (messagesHandler (postMessageEvent c) s now).2.1 now2).2.1 =
        (messagesHandler (postMessageEvent c) s now).2.1 ∧
      ∃ rows,
        (messagesHandler rootGetEvent
            (messagesHandler (postMessageEvent c) s now).2.1 now2).1.body =
          some (Json.obj [("messages", Json.arr (rows.map flatMsgJson))]) ∧
        rows.Perm (s.messages ++ [⟨s.nextMessageId, pyStrip c, none, none, now⟩]) ∧
        List.Pairwise msgDesc rows ∧
        rows.head? = some ⟨s.nextMessageId, pyStrip c, none, none, now⟩) := by
  constructor
  · intro hblank
    rw [messagesHandler_post,
      messagesCreate_blank (⟨none, none, none, some c, none, none⟩ : BodyData) s now hblank]
    exact ⟨rfl, rfl⟩
  · intro hne
    rw [messagesHandler_post,
      messagesCreate_ok (⟨none, none, none, some c, none, none⟩ : BodyData) s now hne]
    dsimp only [Option.getD]
    rw [messagesHandler_get]
    refine ⟨rfl, rfl, rfl, rfl, ?_⟩
    refine ⟨List.insertionSort msgDesc
        (s.messages ++ [⟨s.nextMessageId, pyStrip c, none, none, now⟩]),
      ?_, List.perm_insertionSort _ _, List.sorted_insertionSort msgDesc _,
      head?_of_pairwise_fresh s.messages _ _ (List.perm_insertionSort _ _)
        (List.sorted_insertionSort msgDesc _) hfresh⟩
    rfl

/-- Witness for C7: posting "hello" to the empty board answers 201. -/
theorem messages_post_then_list_witness :
    (messagesHandler (postMessageEvent "hello") emptyStore 5).1.statusCode = 201 :=
  ((messages_post_then_list emptyStore "hello" 5 6 (by decide)).2 (by decide)).1
